import Mathlib

/-!
Shallow embedding of the BTC triple-signal trading strategy
(`btc_triple_signal_strategy_1h.py`) and of the Binance live-trading
order wrapper (`binance_live_trader.py`).

Prices, indicator values and quantities are embedded as exact rationals;
the properties verified here are order-theoretic (comparisons, branch
precedence, monotonicity) and do not depend on floating-point rounding.
Leaf indicator computations (SMA, RSI, MACD, stochastic, ATR, ADX) are
performed by the external talib/vnpy `ArrayManager` library; they enter
the embedding as a per-bar snapshot `IndValues` handed to
`calculate_indicators`, exactly at the point where the source reads the
corresponding `am.sma`, `am.rsi`, `am.macd`, `am.stoch`, `am.atr`,
`am.adx` calls.  Logging (`write_log`), UI events (`put_event`) and the
unused local `atr_stop_price` of `manage_long_position` /
`manage_short_position` have no effect on state or decisions and are
omitted.
-/

namespace BtcStrategy

/-- OHLCV bar, mirroring the fields of vnpy `BarData` that the strategy
reads (`open_price`, `high_price`, `low_price`, `close_price`,
`volume`). -/
structure BarData where
  open_price : ℚ
  high_price : ℚ
  low_price : ℚ
  close_price : ℚ
  volume : ℚ
deriving DecidableEq

/-- Indicator values the external `ArrayManager`/talib library returns on
one bar: the results of the `am.sma`, `am.rsi`, `am.macd` (histogram),
`am.stoch`, `am.atr` and `am.adx` calls made inside
`calculate_indicators` (lines 412-460 of the strategy). -/
structure IndValues where
  fast_sma : ℚ
  slow_sma : ℚ
  rsi : ℚ
  macd_hist : ℚ
  k : ℚ
  d : ℚ
  atr : ℚ
  adx : ℚ
deriving DecidableEq

/-- Strategy parameters of `BtcTripleSignalStrategy1h` (class attributes,
lines 39-75) that the embedded logic reads. -/
structure Params where
  signal_num : ℤ
  fixed_size : ℚ
  rsi_buy_level : ℚ
  rsi_sell_level : ℚ
  trailing_stop_activation_pct : ℚ
  atr_multiplier : ℚ
  adx_threshold : ℚ
  volume_window : ℕ
  volume_multiplier : ℚ
deriving DecidableEq

/-- Default parameter values from the class attributes of
`BtcTripleSignalStrategy1h` (signal_num = 2, fixed_size = 0.01,
rsi levels 30/70, activation 1%, atr_multiplier 2.5, adx_threshold 20,
volume_window 20, volume_multiplier 1.2). -/
def defaultParams : Params :=
  { signal_num := 2
    fixed_size := 1/100
    rsi_buy_level := 30
    rsi_sell_level := 70
    trailing_stop_activation_pct := 1/100
    atr_multiplier := 5/2
    adx_threshold := 20
    volume_window := 20
    volume_multiplier := 6/5 }

/-- Mutable strategy state: the instance variables of
`BtcTripleSignalStrategy1h` (constructor lines 163-195 and class
variables lines 78-89), together with the strategy-owned
`ArrayManager(200)` modelled by its bar count `am_count`, its
initialization flag `am_inited` and its fixed-length volume ring
`volume_array`. -/
structure StratState where
  pos : ℚ
  entry_price : ℚ
  intra_trade_high : ℚ
  intra_trade_low : ℚ
  trailing_stop_price : ℚ
  fast_ma0 : ℚ
  fast_ma1 : ℚ
  slow_ma0 : ℚ
  slow_ma1 : ℚ
  ma_trend : ℤ
  signal_count : ℤ
  rsi_value : ℚ
  macd_value : ℚ
  k_value : ℚ
  d_value : ℚ
  last_k : ℚ
  last_d : ℚ
  stoch_cross_over : Bool
  atr_value : ℚ
  adx_value : ℚ
  bar_count : ℕ
  last_price : ℚ
  am_count : ℕ
  am_inited : Bool
  volume_array : List ℚ
deriving DecidableEq

/-- Fresh strategy state as built by `__init__`: position 0, all price
and indicator variables 0, crossover flag false, and an empty
`ArrayManager(200)` (count 0, not inited, arrays zero-filled). -/
def initState : StratState :=
  { pos := 0
    entry_price := 0
    intra_trade_high := 0
    intra_trade_low := 0
    trailing_stop_price := 0
    fast_ma0 := 0
    fast_ma1 := 0
    slow_ma0 := 0
    slow_ma1 := 0
    ma_trend := 0
    signal_count := 0
    rsi_value := 0
    macd_value := 0
    k_value := 0
    d_value := 0
    last_k := 0
    last_d := 0
    stoch_cross_over := false
    atr_value := 0
    adx_value := 0
    bar_count := 0
    last_price := 0
    am_count := 0
    am_inited := false
    volume_array := List.replicate 200 0 }

/-- Exit reasons of position management, in the order the source checks
them: stop-loss (lines 481/520), RSI take-profit (487/526), signal
reversal (493/532). -/
inductive ExitReason
  | stopLoss
  | rsiTakeProfit
  | signalReversal
deriving DecidableEq

/-- What `generate_signals` did on a bar: early return because the
array manager is not inited (`skip`), position management for a long or
short position (carrying the exit it issued, if any), or the entry
pipeline (which ends in no trade, a long entry order, or a short entry
order). -/
inductive SignalAction
  | skip
  | managedLong (e : Option ExitReason)
  | managedShort (e : Option ExitReason)
  | noEntry
  | enterLong
  | enterShort
deriving DecidableEq

/-- KDJ golden/dead-cross flag update, lines 449-454: a golden cross
(previous K below previous D, current K above current D) sets the flag;
a dead cross (previous K above previous D, current K below current D)
clears it; otherwise the flag is left unchanged. -/
def stoch_cross_update (lastK lastD k d : ℚ) (flag : Bool) : Bool :=
  if lastK < lastD ∧ d < k then true
  else if lastD < lastK ∧ k < d then false
  else flag

/-- Body of `calculate_indicators` (lines 402-460) after the external
indicator library has produced the per-bar values `iv`: shift the MA and
K/D history, recompute the MA trend sign, store the fresh RSI / MACD
histogram / K / D / ATR / ADX values and update the crossover flag. -/
def calculate_indicators (iv : IndValues) (s : StratState) : StratState :=
  { s with
    fast_ma1 := s.fast_ma0
    slow_ma1 := s.slow_ma0
    fast_ma0 := iv.fast_sma
    slow_ma0 := iv.slow_sma
    ma_trend := if iv.slow_sma < iv.fast_sma then 1
      else if iv.fast_sma < iv.slow_sma then -1 else 0
    rsi_value := iv.rsi
    macd_value := iv.macd_hist
    last_k := s.k_value
    last_d := s.d_value
    k_value := iv.k
    d_value := iv.d
    stoch_cross_over := stoch_cross_update s.k_value s.d_value iv.k iv.d s.stoch_cross_over
    atr_value := iv.atr
    adx_value := iv.adx }

/-- Trailing-stop update of `manage_long_position` (lines 470-478): once
the close exceeds the activation threshold, the candidate stop
`intra_trade_high - ATR * atr_multiplier` replaces the current stop only
when it is strictly higher. -/
def long_updated_stop (p : Params) (s : StratState) (bar : BarData) : ℚ :=
  if s.entry_price * (1 + p.trailing_stop_activation_pct) < bar.close_price then
    (if s.trailing_stop_price < s.intra_trade_high - s.atr_value * p.atr_multiplier then
      s.intra_trade_high - s.atr_value * p.atr_multiplier
     else s.trailing_stop_price)
  else s.trailing_stop_price

/-- Trailing-stop update of `manage_short_position` (lines 508-517): once
the close is below the activation threshold, the candidate stop
`intra_trade_low + ATR * atr_multiplier` replaces the current stop when
the current stop is 0 or the candidate is strictly lower. -/
def short_updated_stop (p : Params) (s : StratState) (bar : BarData) : ℚ :=
  if bar.close_price < s.entry_price * (1 - p.trailing_stop_activation_pct) then
    (if s.trailing_stop_price = 0 ∨
        s.intra_trade_low + s.atr_value * p.atr_multiplier < s.trailing_stop_price then
      s.intra_trade_low + s.atr_value * p.atr_multiplier
     else s.trailing_stop_price)
  else s.trailing_stop_price

/-- Long position management, `manage_long_position` (lines 462-499):
update the trailing stop, then check — in this order — stop-loss
(close at or below the stop), RSI take-profit (RSI at or above the sell
level), signal reversal (signal count at threshold with the MA trend
down).  The first matching check issues the (single) exit order; the
returned state carries the updated stop. -/
def manage_long_position (p : Params) (s : StratState) (bar : BarData) :
    Option ExitReason × StratState :=
  let s1 : StratState := { s with trailing_stop_price := long_updated_stop p s bar }
  if bar.close_price ≤ s1.trailing_stop_price then (some ExitReason.stopLoss, s1)
  else if p.rsi_sell_level ≤ s1.rsi_value then (some ExitReason.rsiTakeProfit, s1)
  else if p.signal_num ≤ s1.signal_count ∧ s1.ma_trend = -1 then
    (some ExitReason.signalReversal, s1)
  else (none, s1)

/-- Short position management, `manage_short_position` (lines 501-538):
update the trailing stop, then check — in this order — stop-loss
(close at or above the stop), RSI take-profit (RSI at or below the buy
level), signal reversal (signal count at threshold with the MA trend
up).  The first matching check issues the (single) cover order; the
returned state carries the updated stop. -/
def manage_short_position (p : Params) (s : StratState) (bar : BarData) :
    Option ExitReason × StratState :=
  let s1 : StratState := { s with trailing_stop_price := short_updated_stop p s bar }
  if s1.trailing_stop_price ≤ bar.close_price then (some ExitReason.stopLoss, s1)
  else if s1.rsi_value ≤ p.rsi_buy_level then (some ExitReason.rsiTakeProfit, s1)
  else if p.signal_num ≤ s1.signal_count ∧ s1.ma_trend = 1 then
    (some ExitReason.signalReversal, s1)
  else (none, s1)

/-- Mean of the last `w` entries of a list, as computed by
`self.am.volume_array[-self.volume_window:].mean()` on the fixed-length
volume array (line 586). -/
def lastWindowMean (l : List ℚ) (w : ℕ) : ℚ :=
  ((l.drop (l.length - w)).sum) / (((l.drop (l.length - w)).length : ℚ))

/-- `generate_signals` (lines 540-617).  Early return when the array
manager is not inited; position management (with priority) when a
position is held; otherwise the three-layer entry pipeline: ADX
trend-strength gate, MA direction gate, then the three oscillator
sub-signals with the volume confirmation, entering long/short when
enough sub-signals agree with the MA direction.  An entry order also
pre-sets `entry_price` and the corresponding intra-trade extreme
(lines 602-603 and 614-615). -/
def generate_signals (p : Params) (s : StratState) (bar : BarData) :
    SignalAction × StratState :=
  if s.am_inited = false then (SignalAction.skip, s)
  else if 0 < s.pos then
    (SignalAction.managedLong (manage_long_position p s bar).1,
     (manage_long_position p s bar).2)
  else if s.pos < 0 then
    (SignalAction.managedShort (manage_short_position p s bar).1,
     (manage_short_position p s bar).2)
  else if s.adx_value < p.adx_threshold then (SignalAction.noEntry, s)
  else if s.ma_trend = 0 then (SignalAction.noEntry, s)
  else
    let rsi_signal : ℤ := if s.rsi_value ≤ p.rsi_buy_level then 1
      else if p.rsi_sell_level ≤ s.rsi_value then -1 else 0
    let macd_signal : ℤ := if 0 < s.macd_value then 1
      else if s.macd_value < 0 then -1 else 0
    let kdj_signal : ℤ := if s.stoch_cross_over then 1
      else if s.stoch_cross_over = false ∧ 80 < s.k_value ∧ 80 < s.d_value then -1
      else 0
    let long_signals : ℤ := (if rsi_signal = 1 then 1 else 0)
      + (if macd_signal = 1 then 1 else 0) + (if kdj_signal = 1 then 1 else 0)
    let short_signals : ℤ := (if rsi_signal = -1 then 1 else 0)
      + (if macd_signal = -1 then 1 else 0) + (if kdj_signal = -1 then 1 else 0)
    let volume_ma : ℚ := lastWindowMean s.volume_array p.volume_window
    if ¬ (volume_ma * p.volume_multiplier < bar.volume) then (SignalAction.noEntry, s)
    else if s.ma_trend = 1 then
      (if p.signal_num ≤ long_signals then
        (SignalAction.enterLong,
         { s with entry_price := bar.close_price, intra_trade_high := bar.high_price })
       else (SignalAction.noEntry, s))
    else if s.ma_trend = -1 then
      (if p.signal_num ≤ short_signals then
        (SignalAction.enterShort,
         { s with entry_price := bar.close_price, intra_trade_low := bar.low_price })
       else (SignalAction.noEntry, s))
    else (SignalAction.noEntry, s)

/-- Intra-trade extreme update at the top of `on_bar` (lines 368-371):
while long, track the running high; while short, the running low. -/
def update_intra_trade (s : StratState) (bar : BarData) : StratState :=
  if 0 < s.pos then { s with intra_trade_high := max s.intra_trade_high bar.high_price }
  else if s.pos < 0 then { s with intra_trade_low := min s.intra_trade_low bar.low_price }
  else s

/-- `ArrayManager.update_bar` of the vnpy utility library (the strategy
constructs `ArrayManager(200)`): the bar count is incremented, the
inited flag is raised once the count reaches the capacity 200, and the
fixed-length volume array shifts in the new bar volume. -/
def am_update_bar (s : StratState) (bar : BarData) : StratState :=
  { s with
    am_count := s.am_count + 1
    am_inited := s.am_inited || decide (200 ≤ s.am_count + 1)
    volume_array := s.volume_array.drop 1 ++ [bar.volume] }

/-- State updates of `on_bar` that precede the inited check
(lines 357-383): bar counter, last price, intra-trade extremes, and the
array-manager update.  (`cancel_all` touches only resting orders, which
carry no strategy state.) -/
def pre_bar_state (s : StratState) (bar : BarData) : StratState :=
  am_update_bar
    (update_intra_trade
      { s with bar_count := s.bar_count + 1, last_price := bar.close_price } bar)
    bar

/-- `on_bar` (lines 357-400): run the pre-decision state updates; only
when the array manager is inited compute indicators (from the external
per-bar snapshot `iv`) and generate signals; otherwise skip all
decision logic for this bar.  Returns what was done and the new
state. -/
def on_bar (p : Params) (s : StratState) (bar : BarData) (iv : IndValues) :
    SignalAction × StratState :=
  let s3 : StratState := pre_bar_state s bar
  if s3.am_inited then generate_signals p (calculate_indicators iv s3) bar
  else (SignalAction.skip, s3)

/-- State transition of one processed bar. -/
def bar_step (p : Params) (s : StratState) (bi : BarData × IndValues) : StratState :=
  (on_bar p s bi.1 bi.2).2

/-- Trailing-stop values over consecutive bars: the stop before the
first bar followed by the stop after each processed bar. -/
def stop_trace (p : Params) (s : StratState) (l : List (BarData × IndValues)) : List ℚ :=
  (List.scanl (bar_step p) s l).map (fun t => t.trailing_stop_price)

/-- Process a list of bars (each with its external indicator snapshot),
collecting the action taken on every bar. -/
def run_bars (p : Params) (s : StratState) (l : List (BarData × IndValues)) :
    StratState × List SignalAction :=
  match l with
  | [] => (s, [])
  | bi :: t =>
    (  (run_bars p (bar_step p s bi) t).1,
       (on_bar p s bi.1 bi.2).1 :: (run_bars p (bar_step p s bi) t).2)

/-- Number of exit orders an `Option ExitReason` stands for. -/
def exit_order_count (e : Option ExitReason) : ℕ :=
  match e with
  | none => 0
  | some _ => 1

/-- Number of orders emitted by one bar's action: one per exit order and
one per entry order, none otherwise. -/
def orders_of_action (a : SignalAction) : ℕ :=
  match a with
  | SignalAction.skip => 0
  | SignalAction.managedLong e => exit_order_count e
  | SignalAction.managedShort e => exit_order_count e
  | SignalAction.noEntry => 0
  | SignalAction.enterLong => 1
  | SignalAction.enterShort => 1

/-- Decides whether an action is the skip of an uninitialized bar. -/
def action_is_skip (a : SignalAction) : Bool :=
  match a with
  | SignalAction.skip => true
  | _ => false

/-- Trade direction of a vnpy fill (`Direction.LONG` / `Direction.SHORT`). -/
inductive TradeDirection
  | long
  | short
deriving DecidableEq

/-- Trade offset of a vnpy fill: opening or closing a position (the
source compares `trade.offset.value` with the opening label). -/
inductive TradeOffset
  | opening
  | closing
deriving DecidableEq

/-- Fields of a vnpy `TradeData` fill that `on_trade` reads. -/
structure TradeData where
  direction : TradeDirection
  offset : TradeOffset
  price : ℚ
  volume : ℚ
deriving DecidableEq

/-- `on_trade` (lines 634-666).  On an opening fill: set `entry_price`
to the fill price and, for a long fill, set `intra_trade_high` to the
fill price and the initial stop to `price - ATR * atr_multiplier`; for a
short fill, set `intra_trade_low` to the fill price and the initial stop
to `price + ATR * atr_multiplier`.  On a closing fill: reset
`entry_price`, `intra_trade_high`, `intra_trade_low` and
`trailing_stop_price` to zero. -/
def on_trade (p : Params) (s : StratState) (t : TradeData) : StratState :=
  if t.offset = TradeOffset.opening then
    (if t.direction = TradeDirection.long then
      { s with
        entry_price := t.price
        intra_trade_high := t.price
        trailing_stop_price := t.price - s.atr_value * p.atr_multiplier }
     else
      { s with
        entry_price := t.price
        intra_trade_low := t.price
        trailing_stop_price := t.price + s.atr_value * p.atr_multiplier })
  else
    { s with
      entry_price := 0
      intra_trade_high := 0
      intra_trade_low := 0
      trailing_stop_price := 0 }

/-- Decides whether an action came out of the entry-evaluation pipeline
(the code after the position-management block of `generate_signals`),
whether or not it ended in an entry order. -/
def action_is_entry (a : SignalAction) : Bool :=
  match a with
  | SignalAction.noEntry => true
  | SignalAction.enterLong => true
  | SignalAction.enterShort => true
  | _ => false

/-- Sample indicator snapshot used by concrete test scenarios. -/
def sampleIv : IndValues :=
  { fast_sma := 2, slow_sma := 1, rsi := 50, macd_hist := 1, k := 5, d := 4, atr := 2, adx := 25 }

/-- Indicator snapshot producing a golden cross from `crossState`
(previous K 1 below previous D 2, new K 3 above new D 2). -/
def sampleIv1 : IndValues :=
  { fast_sma := 2, slow_sma := 1, rsi := 50, macd_hist := 1, k := 3, d := 2, atr := 2, adx := 25 }

/-- Indicator snapshot for the bar after the golden cross: previous K 3
above previous D 2 and new K 4 above new D 2, so no new cross of either
kind occurs. -/
def sampleIv2 : IndValues :=
  { fast_sma := 2, slow_sma := 1, rsi := 50, macd_hist := 1, k := 4, d := 2, atr := 2, adx := 25 }

/-- Sample bar used by concrete long-side test scenarios. -/
def sampleBar : BarData :=
  { open_price := 100, high_price := 112, low_price := 105, close_price := 110, volume := 50 }

/-- Sample bar used by concrete short-side test scenarios. -/
def shortBar : BarData :=
  { open_price := 90, high_price := 95, low_price := 84, close_price := 85, volume := 50 }

/-- Sample strategy state holding a long position. -/
def sampleLong : StratState :=
  { initState with
    pos := 1/100, entry_price := 100, intra_trade_high := 112,
    trailing_stop_price := 95, atr_value := 2, rsi_value := 50,
    ma_trend := 1, adx_value := 25, am_inited := true, am_count := 200 }

/-- Sample strategy state holding a short position. -/
def sampleShort : StratState :=
  { initState with
    pos := -(1/100), entry_price := 100, intra_trade_low := 90,
    trailing_stop_price := 97, atr_value := 2, rsi_value := 50,
    ma_trend := -1, adx_value := 25, am_inited := true, am_count := 200 }

/-- Long state whose RSI is already in the take-profit zone, for the
simultaneous stop-breach / take-profit scenario. -/
def c2LongState : StratState := { sampleLong with rsi_value := 75 }

/-- Bar that both breaches the (updated) long trailing stop and leaves
RSI in the take-profit zone. -/
def c2LongBar : BarData :=
  { open_price := 100, high_price := 112, low_price := 100, close_price := 105, volume := 50 }

/-- Short state whose RSI is already in the take-profit zone, for the
simultaneous stop-breach / take-profit scenario. -/
def c2ShortState : StratState := { sampleShort with rsi_value := 25 }

/-- Bar that both breaches the (updated) short trailing stop and leaves
RSI in the take-profit zone. -/
def c2ShortBar : BarData :=
  { open_price := 95, high_price := 99, low_price := 95, close_price := 98, volume := 50 }

/-- State whose previous K 1 is below previous D 2, ready for a golden
cross. -/
def crossState : StratState := { initState with k_value := 1, d_value := 2 }

/-- Flat state carrying ATR 500, matching the spec's worked entry
example. -/
def sampleEntryState : StratState := { initState with atr_value := 500 }

/-- Long opening fill at 50000. -/
def openLongTrade : TradeData :=
  { direction := TradeDirection.long, offset := TradeOffset.opening, price := 50000, volume := 1/100 }

/-- Short opening fill at 50000. -/
def openShortTrade : TradeData :=
  { direction := TradeDirection.short, offset := TradeOffset.opening, price := 50000, volume := 1/100 }

/-- Closing fill at 51000. -/
def closeTrade : TradeData :=
  { direction := TradeDirection.short, offset := TradeOffset.closing, price := 51000, volume := 1/100 }

/-- Short state whose trailing stop is still 0, for the zero-stop edge
case. -/
def sampleZeroShort : StratState :=
  { initState with
    pos := -(1/100), entry_price := 100, intra_trade_low := 90,
    trailing_stop_price := 0, atr_value := 2 }

/-- Bar on which the short activation threshold does not hold
(close 100 is not below 99). -/
def zeroStopBarHold : BarData :=
  { open_price := 100, high_price := 101, low_price := 99, close_price := 100, volume := 10 }

/-- Bar on which the short activation threshold holds (close 50 is below
99). -/
def zeroStopBarAct : BarData :=
  { open_price := 60, high_price := 61, low_price := 50, close_price := 50, volume := 10 }

/-- Long state whose trailing stop is still 0 and whose stop candidate
is negative. -/
def sampleZeroLong : StratState :=
  { initState with
    pos := 1/100, entry_price := 100, intra_trade_high := 1,
    trailing_stop_price := 0, atr_value := 2 }

/-- Bar on which the long activation threshold holds (close 200 exceeds
101). -/
def zeroLongActBar : BarData :=
  { open_price := 150, high_price := 200, low_price := 150, close_price := 200, volume := 10 }

end BtcStrategy

namespace BinanceTrader

/-- One fill inside a Binance order response (`order['fills']`). -/
structure Fill where
  price : ℚ
deriving DecidableEq

/-- A Binance order response as `buy_market` reads it: its list of
fills. -/
structure BinanceOrder where
  fills : List Fill
deriving DecidableEq

/-- The exception classes caught by the order methods of
`BinanceLiveTrader`: `BinanceAPIException`, `BinanceOrderException`, and
any other exception. -/
inductive ApiFailure
  | apiError
  | orderError
  | otherError
deriving DecidableEq

/-- Mutable trading state of `BinanceLiveTrader`: current position and
entry price (lines 73-74). -/
structure TraderState where
  position : ℚ
  entry_price : ℚ
deriving DecidableEq

/-- Python `rstrip` of a single character: drop every trailing
occurrence of `c`. -/
def rstrip_char (l : List Char) (c : Char) : List Char :=
  (l.reverse.dropWhile (fun x => x = c)).reverse

/-- Decimal-place count derived from the step-size string (viewed as its
character list), mirroring lines 149-150 of `binance_live_trader.py`: if
the string contains a dot, trailing zeros and then trailing dots are
stripped; the precision is the length of the fragment after the last dot
when a dot remains, else 0.  The input is the string Python's `str()`
produces for the float `step_size` (note `str(0.00001)` is `"1e-05"`,
which contains no dot). -/
def step_precision (stepStr : String) : ℕ :=
  let dot : Char := Char.ofNat 46
  let zero : Char := Char.ofNat 48
  let l : List Char := stepStr.data
  let s : List Char :=
    if l.contains dot then rstrip_char (rstrip_char l zero) dot else l
  if s.contains dot then ((s.splitOnP (fun c => c = dot)).getLastD []).length
  else 0

/-- Truncation toward zero of a rational, as `Decimal.quantize` with
`ROUND_DOWN` does. -/
def trunc_toward_zero (q : ℚ) : ℤ :=
  if 0 ≤ q then ⌊q⌋ else ⌈q⌉

/-- `round_quantity` (lines 147-153): truncate the quantity toward zero
at the number of decimal places derived from the step-size string. -/
def round_quantity (stepStr : String) (q : ℚ) : ℚ :=
  (trunc_toward_zero (q * (10 : ℚ) ^ step_precision stepStr) : ℚ)
    / (10 : ℚ) ^ step_precision stepStr

/-- `buy_market` (lines 163-206): round the quantity; reject (return
none) when the rounded quantity is below `min_qty`; submit the order —
on any caught exception return none; on success add the rounded quantity
to the position and set the entry price from the first fill (falling
back to the current market price when the response carries no fills). -/
def buy_market (stepStr : String) (min_qty : ℚ) (current_price : ℚ)
    (createOrder : Except ApiFailure BinanceOrder) (s : TraderState) (quantity : ℚ) :
    Option BinanceOrder × TraderState :=
  let q : ℚ := round_quantity stepStr quantity
  if q < min_qty then (none, s)
  else
    match createOrder with
    | Except.error _ => (none, s)
    | Except.ok order =>
      (some order,
       { position := s.position + q
         entry_price :=
           match order.fills with
           | [] => current_price
           | f :: _ => f.price })

/-- `sell_market` (lines 208-253): round the quantity; reject (return
none) when the rounded quantity is below `min_qty`; submit the order —
on any caught exception return none; on success subtract the rounded
quantity from the position, clamping a non-positive result to a flat
zero position with zero entry price. -/
def sell_market (stepStr : String) (min_qty : ℚ)
    (createOrder : Except ApiFailure BinanceOrder) (s : TraderState) (quantity : ℚ) :
    Option BinanceOrder × TraderState :=
  let q : ℚ := round_quantity stepStr quantity
  if q < min_qty then (none, s)
  else
    match createOrder with
    | Except.error _ => (none, s)
    | Except.ok order =>
      (some order,
       if s.position - q ≤ 0 then { position := 0, entry_price := 0 }
       else { s with position := s.position - q })

/-- Sample successful order response with one fill at 50000. -/
def sampleOrder : BinanceOrder := { fills := [{ price := 50000 }] }

/-- Sample trader state holding half a BTC bought at 40000. -/
def sampleTrader : TraderState := { position := 1/2, entry_price := 40000 }

end BinanceTrader

namespace BtcStrategy

/-- Updating the trailing stop for a long position can only raise it. -/
theorem long_updated_stop_ge (p : Params) (s : StratState) (bar : BarData) :
    s.trailing_stop_price ≤ long_updated_stop p s bar := by
  unfold long_updated_stop
  split_ifs with h1 h2
  · exact le_of_lt h2
  · exact le_rfl
  · exact le_rfl

/-- If the long trailing stop changed, the candidate stop was adopted and
it was strictly above the previous stop. -/
theorem long_updated_stop_change (p : Params) (s : StratState) (bar : BarData)
    (h : long_updated_stop p s bar ≠ s.trailing_stop_price) :
    long_updated_stop p s bar = s.intra_trade_high - s.atr_value * p.atr_multiplier
    ∧ s.trailing_stop_price < s.intra_trade_high - s.atr_value * p.atr_multiplier := by
  unfold long_updated_stop at h ⊢
  split_ifs at h ⊢ with h1 h2
  · exact ⟨rfl, h2⟩
  · exact absurd rfl h
  · exact absurd rfl h

/-- With a nonzero current stop, updating the trailing stop for a short
position can only lower it. -/
theorem short_updated_stop_le (p : Params) (s : StratState) (bar : BarData)
    (h : s.trailing_stop_price ≠ 0) :
    short_updated_stop p s bar ≤ s.trailing_stop_price := by
  unfold short_updated_stop
  split_ifs with h1 h2
  · rcases h2 with h2 | h2
    · exact absurd h2 h
    · exact le_of_lt h2
  · exact le_rfl
  · exact le_rfl

/-- With a positive stop, a nonnegative intra-trade low and a positive
ATR step, the updated short stop stays positive. -/
theorem short_updated_stop_pos (p : Params) (s : StratState) (bar : BarData)
    (h1 : 0 < s.trailing_stop_price) (h2 : 0 ≤ s.intra_trade_low)
    (h3 : 0 < s.atr_value * p.atr_multiplier) :
    0 < short_updated_stop p s bar := by
  unfold short_updated_stop
  split_ifs with ha hb
  · linarith
  · exact h1
  · exact h1

/-- If the short trailing stop changed while it was nonzero, the
candidate stop was adopted and it was strictly below the previous
stop. -/
theorem short_updated_stop_change (p : Params) (s : StratState) (bar : BarData)
    (h0 : s.trailing_stop_price ≠ 0)
    (h : short_updated_stop p s bar ≠ s.trailing_stop_price) :
    short_updated_stop p s bar = s.intra_trade_low + s.atr_value * p.atr_multiplier
    ∧ s.intra_trade_low + s.atr_value * p.atr_multiplier < s.trailing_stop_price := by
  unfold short_updated_stop at h ⊢
  split_ifs at h ⊢ with h1 h2
  · refine ⟨rfl, ?_⟩
    rcases h2 with h2 | h2
    · exact absurd h2 h0
    · exact h2
  · exact absurd rfl h
  · exact absurd rfl h

/-- The state returned by long position management is the input state
with the trailing stop updated. -/
theorem manage_long_snd (p : Params) (s : StratState) (bar : BarData) :
    (manage_long_position p s bar).2
      = { s with trailing_stop_price := long_updated_stop p s bar } := by
  unfold manage_long_position
  dsimp only
  split_ifs <;> rfl

/-- The state returned by short position management is the input state
with the trailing stop updated. -/
theorem manage_short_snd (p : Params) (s : StratState) (bar : BarData) :
    (manage_short_position p s bar).2
      = { s with trailing_stop_price := short_updated_stop p s bar } := by
  unfold manage_short_position
  dsimp only
  split_ifs <;> rfl

/-- The trailing stop after long position management. -/
theorem manage_long_stop_eq (p : Params) (s : StratState) (bar : BarData) :
    (manage_long_position p s bar).2.trailing_stop_price = long_updated_stop p s bar := by
  rw [manage_long_snd]

/-- The trailing stop after short position management. -/
theorem manage_short_stop_eq (p : Params) (s : StratState) (bar : BarData) :
    (manage_short_position p s bar).2.trailing_stop_price = short_updated_stop p s bar := by
  rw [manage_short_snd]

/-- The exit issued by long position management, as a cascade over the
three conditions in source order. -/
theorem manage_long_fst (p : Params) (s : StratState) (bar : BarData) :
    (manage_long_position p s bar).1
      = (if bar.close_price ≤ long_updated_stop p s bar then some ExitReason.stopLoss
         else if p.rsi_sell_level ≤ s.rsi_value then some ExitReason.rsiTakeProfit
         else if p.signal_num ≤ s.signal_count ∧ s.ma_trend = -1 then
           some ExitReason.signalReversal
         else none) := by
  unfold manage_long_position
  dsimp only
  split_ifs <;> rfl

/-- The exit issued by short position management, as a cascade over the
three conditions in source order. -/
theorem manage_short_fst (p : Params) (s : StratState) (bar : BarData) :
    (manage_short_position p s bar).1
      = (if short_updated_stop p s bar ≤ bar.close_price then some ExitReason.stopLoss
         else if s.rsi_value ≤ p.rsi_buy_level then some ExitReason.rsiTakeProfit
         else if p.signal_num ≤ s.signal_count ∧ s.ma_trend = 1 then
           some ExitReason.signalReversal
         else none) := by
  unfold manage_short_position
  dsimp only
  split_ifs <;> rfl

end BtcStrategy

namespace BtcStrategy

/-- Indicator recomputation does not touch the position. -/
theorem calc_ind_pos (iv : IndValues) (s : StratState) :
    (calculate_indicators iv s).pos = s.pos := rfl

/-- Indicator recomputation does not touch the trailing stop. -/
theorem calc_ind_stop (iv : IndValues) (s : StratState) :
    (calculate_indicators iv s).trailing_stop_price = s.trailing_stop_price := rfl

/-- Indicator recomputation does not touch the intra-trade low. -/
theorem calc_ind_low (iv : IndValues) (s : StratState) :
    (calculate_indicators iv s).intra_trade_low = s.intra_trade_low := rfl

/-- Indicator recomputation does not touch the inited flag. -/
theorem calc_ind_am_inited (iv : IndValues) (s : StratState) :
    (calculate_indicators iv s).am_inited = s.am_inited := rfl

/-- Indicator recomputation stores the freshly computed ATR. -/
theorem calc_ind_atr (iv : IndValues) (s : StratState) :
    (calculate_indicators iv s).atr_value = iv.atr := rfl

/-- The pre-decision bar updates do not touch the position. -/
theorem pre_bar_state_pos (s : StratState) (bar : BarData) :
    (pre_bar_state s bar).pos = s.pos := by
  unfold pre_bar_state am_update_bar update_intra_trade
  split_ifs <;> rfl

/-- The pre-decision bar updates do not touch the trailing stop. -/
theorem pre_bar_state_stop (s : StratState) (bar : BarData) :
    (pre_bar_state s bar).trailing_stop_price = s.trailing_stop_price := by
  unfold pre_bar_state am_update_bar update_intra_trade
  split_ifs <;> rfl

/-- The pre-decision bar updates do not touch the entry price. -/
theorem pre_bar_state_entry (s : StratState) (bar : BarData) :
    (pre_bar_state s bar).entry_price = s.entry_price := by
  unfold pre_bar_state am_update_bar update_intra_trade
  split_ifs <;> rfl

/-- The pre-decision bar updates increment the array-manager count. -/
theorem pre_bar_state_am_count (s : StratState) (bar : BarData) :
    (pre_bar_state s bar).am_count = s.am_count + 1 := by
  unfold pre_bar_state am_update_bar update_intra_trade
  split_ifs <;> rfl

/-- The pre-decision bar updates raise the inited flag exactly when the
incremented count reaches the capacity 200. -/
theorem pre_bar_state_am_inited (s : StratState) (bar : BarData) :
    (pre_bar_state s bar).am_inited
      = (s.am_inited || decide (200 ≤ s.am_count + 1)) := by
  unfold pre_bar_state am_update_bar update_intra_trade
  split_ifs <;> rfl

/-- The pre-decision bar updates keep the intra-trade low nonnegative
when it and the bar low are nonnegative. -/
theorem pre_bar_state_low_nonneg (s : StratState) (bar : BarData)
    (h1 : 0 ≤ s.intra_trade_low) (h2 : 0 ≤ bar.low_price) :
    0 ≤ (pre_bar_state s bar).intra_trade_low := by
  unfold pre_bar_state am_update_bar update_intra_trade
  split_ifs
  · exact h1
  · exact le_min h1 h2
  · exact h1

/-- With the array manager inited, `generate_signals` on a long position
runs exactly long position management. -/
theorem generate_signals_long (p : Params) (s : StratState) (bar : BarData)
    (hin : s.am_inited = true) (hpos : 0 < s.pos) :
    generate_signals p s bar
      = (SignalAction.managedLong (manage_long_position p s bar).1,
         (manage_long_position p s bar).2) := by
  unfold generate_signals
  rw [hin]
  rw [if_neg (by simp), if_pos hpos]

/-- With the array manager inited, `generate_signals` on a short position
runs exactly short position management. -/
theorem generate_signals_short (p : Params) (s : StratState) (bar : BarData)
    (hin : s.am_inited = true) (hpos : s.pos < 0) :
    generate_signals p s bar
      = (SignalAction.managedShort (manage_short_position p s bar).1,
         (manage_short_position p s bar).2) := by
  unfold generate_signals
  rw [hin]
  rw [if_neg (by simp), if_neg (by exact not_lt.mpr (le_of_lt hpos)), if_pos hpos]

/-- With the array manager not inited, `generate_signals` skips. -/
theorem generate_signals_skip (p : Params) (s : StratState) (bar : BarData)
    (hin : s.am_inited = false) :
    generate_signals p s bar = (SignalAction.skip, s) := by
  unfold generate_signals
  rw [hin]
  rw [if_pos rfl]

/-- The first element of a mapped scan is the image of the seed. -/
theorem head_of_scanl_map {α β γ : Type} (g : α → β → α) (f : α → γ) (s : α)
    (l : List β) : ((List.scanl g s l).map f).head? = some (f s) := by
  cases l <;> simp [List.scanl_cons]

/-- Chains a step relation along a scan: if every step from a state
satisfying the invariant on a bar satisfying the bar condition relates
the projections and preserves the invariant, the projected scan is a
chain. -/
theorem chain_of_scanl {α β : Type} (r : ℚ → ℚ → Prop) (g : α → β → α) (f : α → ℚ)
    (P : α → Prop) (Q : β → Prop)
    (hstep : ∀ s b, P s → Q b → r (f s) (f (g s b)) ∧ P (g s b)) :
    ∀ (l : List β) (s : α), P s → (∀ b ∈ l, Q b) →
      List.Chain' r ((List.scanl g s l).map f) := by
  intro l
  induction l with
  | nil =>
    intro s hs hq
    simp
  | cons b t ih =>
    intro s hs hq
    have hb : Q b := hq b (List.mem_cons_self b t)
    obtain ⟨hr, hP⟩ := hstep s b hs hb
    have ht : ∀ x ∈ t, Q x := fun x hx => hq x (List.mem_cons_of_mem b hx)
    rw [List.scanl_cons, List.singleton_append, List.map_cons, List.chain'_cons']
    refine ⟨?_, ih (g s b) hP ht⟩
    intro y hy
    rw [head_of_scanl_map] at hy
    cases hy
    exact hr

end BtcStrategy

namespace BtcStrategy

/-- While a long position is held, one processed bar never lowers the
trailing stop and keeps the position long. -/
theorem bar_step_long (p : Params) (s : StratState) (bi : BarData × IndValues)
    (h : 0 < s.pos) :
    s.trailing_stop_price ≤ (bar_step p s bi).trailing_stop_price
    ∧ 0 < (bar_step p s bi).pos := by
  unfold bar_step on_bar
  dsimp only
  split
  next hin =>
    have hpos4 : 0 < (calculate_indicators bi.2 (pre_bar_state s bi.1)).pos := by
      rw [calc_ind_pos, pre_bar_state_pos]
      exact h
    have hin4 : (calculate_indicators bi.2 (pre_bar_state s bi.1)).am_inited = true := by
      rw [calc_ind_am_inited]
      exact hin
    rw [generate_signals_long p _ bi.1 hin4 hpos4]
    dsimp only
    rw [manage_long_snd]
    refine ⟨?_, hpos4⟩
    calc s.trailing_stop_price
        = (calculate_indicators bi.2 (pre_bar_state s bi.1)).trailing_stop_price := by
          rw [calc_ind_stop, pre_bar_state_stop]
      _ ≤ long_updated_stop p (calculate_indicators bi.2 (pre_bar_state s bi.1)) bi.1 :=
          long_updated_stop_ge p _ bi.1
  next hin =>
    dsimp only
    rw [pre_bar_state_stop, pre_bar_state_pos]
    exact ⟨le_rfl, h⟩

/-- While a short position with a positive stop and nonnegative running
low is held, one processed bar with a nonnegative low and a positive ATR
step never raises the trailing stop, and preserves all three
conditions. -/
theorem bar_step_short (p : Params) (s : StratState) (bi : BarData × IndValues)
    (hpos : s.pos < 0) (hstop : 0 < s.trailing_stop_price)
    (hlow : 0 ≤ s.intra_trade_low)
    (hbl : 0 ≤ bi.1.low_price) (hatr : 0 < bi.2.atr * p.atr_multiplier) :
    (bar_step p s bi).trailing_stop_price ≤ s.trailing_stop_price
    ∧ ((bar_step p s bi).pos < 0
       ∧ 0 < (bar_step p s bi).trailing_stop_price
       ∧ 0 ≤ (bar_step p s bi).intra_trade_low) := by
  unfold bar_step on_bar
  dsimp only
  split
  next hin =>
    have hpos4 : (calculate_indicators bi.2 (pre_bar_state s bi.1)).pos < 0 := by
      rw [calc_ind_pos, pre_bar_state_pos]
      exact hpos
    have hin4 : (calculate_indicators bi.2 (pre_bar_state s bi.1)).am_inited = true := by
      rw [calc_ind_am_inited]
      exact hin
    have hstop4 : 0 < (calculate_indicators bi.2 (pre_bar_state s bi.1)).trailing_stop_price := by
      rw [calc_ind_stop, pre_bar_state_stop]
      exact hstop
    have hlow4 : 0 ≤ (calculate_indicators bi.2 (pre_bar_state s bi.1)).intra_trade_low := by
      rw [calc_ind_low]
      exact pre_bar_state_low_nonneg s bi.1 hlow hbl
    have hatr4 : 0 < (calculate_indicators bi.2 (pre_bar_state s bi.1)).atr_value
        * p.atr_multiplier := by
      rw [calc_ind_atr]
      exact hatr
    rw [generate_signals_short p _ bi.1 hin4 hpos4]
    dsimp only
    rw [manage_short_snd]
    refine ⟨?_, hpos4, ?_, hlow4⟩
    · calc short_updated_stop p (calculate_indicators bi.2 (pre_bar_state s bi.1)) bi.1
        ≤ (calculate_indicators bi.2 (pre_bar_state s bi.1)).trailing_stop_price :=
          short_updated_stop_le p _ bi.1 (ne_of_gt hstop4)
        _ = s.trailing_stop_price := by rw [calc_ind_stop, pre_bar_state_stop]
    · exact short_updated_stop_pos p _ bi.1 hstop4 hlow4 hatr4
  next hin =>
    dsimp only
    rw [pre_bar_state_stop, pre_bar_state_pos]
    exact ⟨le_rfl, hpos, hstop, pre_bar_state_low_nonneg s bi.1 hlow hbl⟩

/-- C1: trailing-stop ratchet.  Over any sequence of bars processed
while a long position is held, the trailing-stop values over
consecutive bars form a non-decreasing chain (hence in particular after
the activation threshold has been crossed), and a candidate stop
`intra_trade_high - ATR * atr_multiplier` is ever adopted only when
strictly greater than the current stop.  Symmetrically, while a short
position is held whose opening fill set a positive stop, with
nonnegative bar lows and positive ATR steps, the chain is
non-increasing, and with a nonzero current stop the candidate
`intra_trade_low + ATR * atr_multiplier` is adopted only when strictly
smaller. -/
theorem C1_trailing_stop_ratchet (p : Params) (sL sS sa : StratState)
    (lL lS : List (BarData × IndValues)) (barL barS : BarData)
    (hL : 0 < sL.pos)
    (hSpos : sS.pos < 0) (hSstop : 0 < sS.trailing_stop_price)
    (hSlow : 0 ≤ sS.intra_trade_low)
    (hlS : ∀ bi ∈ lS, 0 ≤ bi.1.low_price ∧ 0 < bi.2.atr * p.atr_multiplier)
    (hsa : sa.trailing_stop_price ≠ 0) :
    List.Chain' (fun a b => a ≤ b) (stop_trace p sL lL)
    ∧ List.Chain' (fun a b => b ≤ a) (stop_trace p sS lS)
    ∧ ((manage_long_position p sa barL).2.trailing_stop_price ≠ sa.trailing_stop_price →
        (manage_long_position p sa barL).2.trailing_stop_price
          = sa.intra_trade_high - sa.atr_value * p.atr_multiplier
        ∧ sa.trailing_stop_price < sa.intra_trade_high - sa.atr_value * p.atr_multiplier)
    ∧ ((manage_short_position p sa barS).2.trailing_stop_price ≠ sa.trailing_stop_price →
        (manage_short_position p sa barS).2.trailing_stop_price
          = sa.intra_trade_low + sa.atr_value * p.atr_multiplier
        ∧ sa.intra_trade_low + sa.atr_value * p.atr_multiplier < sa.trailing_stop_price) := by
  refine ⟨?_, ?_, ?_, ?_⟩
  · exact chain_of_scanl (fun a b => a ≤ b) (bar_step p)
      (fun t => t.trailing_stop_price) (fun s => 0 < s.pos) (fun _ => True)
      (fun s b hs _ => bar_step_long p s b hs) lL sL hL (fun b _ => trivial)
  · exact chain_of_scanl (fun a b => b ≤ a) (bar_step p)
      (fun t => t.trailing_stop_price)
      (fun s => s.pos < 0 ∧ 0 < s.trailing_stop_price ∧ 0 ≤ s.intra_trade_low)
      (fun bi => 0 ≤ bi.1.low_price ∧ 0 < bi.2.atr * p.atr_multiplier)
      (fun s b hs hb =>
        bar_step_short p s b hs.1 hs.2.1 hs.2.2 hb.1 hb.2)
      lS sS ⟨hSpos, hSstop, hSlow⟩ hlS
  · intro h
    rw [manage_long_stop_eq] at h ⊢
    exact long_updated_stop_change p sa barL h
  · intro h
    rw [manage_short_stop_eq] at h ⊢
    exact short_updated_stop_change p sa barS hsa h

/-- Witness for C1: a held long position over one bar (stop 95 raised to
107) and a held short position over one bar (stop 97 lowered to 95),
with both adoptions matching the candidate stops. -/
theorem C1_trailing_stop_ratchet_witness :
    List.Chain' (fun a b => a ≤ b)
      (stop_trace defaultParams sampleLong [(sampleBar, sampleIv)])
    ∧ List.Chain' (fun a b => b ≤ a)
      (stop_trace defaultParams sampleShort [(shortBar, sampleIv)])
    ∧ (manage_long_position defaultParams sampleLong sampleBar).2.trailing_stop_price
        = sampleLong.intra_trade_high - sampleLong.atr_value * defaultParams.atr_multiplier
    ∧ (manage_short_position defaultParams sampleShort shortBar).2.trailing_stop_price
        = sampleShort.intra_trade_low + sampleShort.atr_value * defaultParams.atr_multiplier := by
  have hbars : ∀ bi ∈ [(shortBar, sampleIv)],
      0 ≤ bi.1.low_price ∧ 0 < bi.2.atr * defaultParams.atr_multiplier := by
    intro bi hbi
    simp only [List.mem_singleton] at hbi
    subst hbi
    constructor <;> norm_num [shortBar, sampleIv, defaultParams]
  have h1 := C1_trailing_stop_ratchet defaultParams sampleLong sampleShort sampleLong
    [(sampleBar, sampleIv)] [(shortBar, sampleIv)] sampleBar shortBar
    (by norm_num [sampleLong, initState]) (by norm_num [sampleShort, initState])
    (by norm_num [sampleShort, initState]) (by norm_num [sampleShort, initState])
    hbars (by norm_num [sampleLong, initState])
  have h2 := C1_trailing_stop_ratchet defaultParams sampleLong sampleShort sampleShort
    [(sampleBar, sampleIv)] [(shortBar, sampleIv)] sampleBar shortBar
    (by norm_num [sampleLong, initState]) (by norm_num [sampleShort, initState])
    (by norm_num [sampleShort, initState]) (by norm_num [sampleShort, initState])
    hbars (by norm_num [sampleShort, initState])
  refine ⟨h1.1, h1.2.1, (h1.2.2.1 ?_).1, (h2.2.2.2 ?_).1⟩
  · rw [manage_long_stop_eq]
    norm_num [long_updated_stop, sampleLong, sampleBar, defaultParams, initState]
  · rw [manage_short_stop_eq]
    norm_num [short_updated_stop, sampleShort, shortBar, defaultParams, initState]

end BtcStrategy

namespace BtcStrategy

/-- C2: exit-reason precedence.  On every bar processed while a position
is held, the three exit conditions are checked in the fixed order
stop-loss (close crossing the updated trailing stop), then RSI
take-profit, then signal reversal; exactly the first matching condition
triggers the exit (no match means no exit order), a bar that
simultaneously breaches the trailing stop and satisfies the RSI
take-profit produces a stop-loss exit, and at most one exit order is
issued per bar — for both the long and the short side. -/
theorem C2_exit_precedence (p : Params) (s : StratState) (bar : BarData) :
    ((bar.close_price ≤ (manage_long_position p s bar).2.trailing_stop_price →
        (manage_long_position p s bar).1 = some ExitReason.stopLoss)
    ∧ (¬ bar.close_price ≤ (manage_long_position p s bar).2.trailing_stop_price →
        p.rsi_sell_level ≤ s.rsi_value →
        (manage_long_position p s bar).1 = some ExitReason.rsiTakeProfit)
    ∧ (¬ bar.close_price ≤ (manage_long_position p s bar).2.trailing_stop_price →
        ¬ p.rsi_sell_level ≤ s.rsi_value →
        (p.signal_num ≤ s.signal_count ∧ s.ma_trend = -1) →
        (manage_long_position p s bar).1 = some ExitReason.signalReversal)
    ∧ (¬ bar.close_price ≤ (manage_long_position p s bar).2.trailing_stop_price →
        ¬ p.rsi_sell_level ≤ s.rsi_value →
        ¬ (p.signal_num ≤ s.signal_count ∧ s.ma_trend = -1) →
        (manage_long_position p s bar).1 = none)
    ∧ (bar.close_price ≤ (manage_long_position p s bar).2.trailing_stop_price →
        p.rsi_sell_level ≤ s.rsi_value →
        (manage_long_position p s bar).1 = some ExitReason.stopLoss)
    ∧ exit_order_count (manage_long_position p s bar).1 ≤ 1)
    ∧ (((manage_short_position p s bar).2.trailing_stop_price ≤ bar.close_price →
        (manage_short_position p s bar).1 = some ExitReason.stopLoss)
    ∧ (¬ (manage_short_position p s bar).2.trailing_stop_price ≤ bar.close_price →
        s.rsi_value ≤ p.rsi_buy_level →
        (manage_short_position p s bar).1 = some ExitReason.rsiTakeProfit)
    ∧ (¬ (manage_short_position p s bar).2.trailing_stop_price ≤ bar.close_price →
        ¬ s.rsi_value ≤ p.rsi_buy_level →
        (p.signal_num ≤ s.signal_count ∧ s.ma_trend = 1) →
        (manage_short_position p s bar).1 = some ExitReason.signalReversal)
    ∧ (¬ (manage_short_position p s bar).2.trailing_stop_price ≤ bar.close_price →
        ¬ s.rsi_value ≤ p.rsi_buy_level →
        ¬ (p.signal_num ≤ s.signal_count ∧ s.ma_trend = 1) →
        (manage_short_position p s bar).1 = none)
    ∧ ((manage_short_position p s bar).2.trailing_stop_price ≤ bar.close_price →
        s.rsi_value ≤ p.rsi_buy_level →
        (manage_short_position p s bar).1 = some ExitReason.stopLoss)
    ∧ exit_order_count (manage_short_position p s bar).1 ≤ 1) := by
  rw [manage_long_stop_eq, manage_short_stop_eq, manage_long_fst, manage_short_fst]
  constructor
  · refine ⟨?_, ?_, ?_, ?_, ?_, ?_⟩
    · intro h1
      rw [if_pos h1]
    · intro h1 h2
      rw [if_neg h1, if_pos h2]
    · intro h1 h2 h3
      rw [if_neg h1, if_neg h2, if_pos h3]
    · intro h1 h2 h3
      rw [if_neg h1, if_neg h2, if_neg h3]
    · intro h1 h2
      rw [if_pos h1]
    · split_ifs <;> simp [exit_order_count]
  · refine ⟨?_, ?_, ?_, ?_, ?_, ?_⟩
    · intro h1
      rw [if_pos h1]
    · intro h1 h2
      rw [if_neg h1, if_pos h2]
    · intro h1 h2 h3
      rw [if_neg h1, if_neg h2, if_pos h3]
    · intro h1 h2 h3
      rw [if_neg h1, if_neg h2, if_neg h3]
    · intro h1 h2
      rw [if_pos h1]
    · split_ifs <;> simp [exit_order_count]

/-- Witness for C2: bars that simultaneously breach the trailing stop
and satisfy the RSI take-profit (long: close 105 at or below the updated
stop 107 with RSI 75 at or above 70; short: close 98 at or above the
updated stop 95 with RSI 25 at or below 30) produce stop-loss exits. -/
theorem C2_exit_precedence_witness :
    (manage_long_position defaultParams c2LongState c2LongBar).1
        = some ExitReason.stopLoss
    ∧ defaultParams.rsi_sell_level ≤ c2LongState.rsi_value
    ∧ (manage_short_position defaultParams c2ShortState c2ShortBar).1
        = some ExitReason.stopLoss
    ∧ c2ShortState.rsi_value ≤ defaultParams.rsi_buy_level := by
  have hL := C2_exit_precedence defaultParams c2LongState c2LongBar
  have hS := C2_exit_precedence defaultParams c2ShortState c2ShortBar
  refine ⟨hL.1.2.2.2.2.1 ?_ ?_, ?_, hS.2.2.2.2.2.1 ?_ ?_, ?_⟩
  · rw [manage_long_stop_eq]
    norm_num [long_updated_stop, c2LongState, sampleLong, c2LongBar, defaultParams, initState]
  · norm_num [c2LongState, sampleLong, defaultParams, initState]
  · norm_num [c2LongState, sampleLong, defaultParams, initState]
  · rw [manage_short_stop_eq]
    norm_num [short_updated_stop, c2ShortState, sampleShort, c2ShortBar, defaultParams, initState]
  · norm_num [c2ShortState, sampleShort, defaultParams, initState]
  · norm_num [c2ShortState, sampleShort, defaultParams, initState]

/-- C3: position management always takes priority over entry.  On any
bar on which the position is not flat, `generate_signals` never reaches
the entry-evaluation pipeline: with the array manager inited it runs
exactly the matching position management, and without it it skips. -/
theorem C3_position_priority (p : Params) (s : StratState) (bar : BarData)
    (h : s.pos ≠ 0) :
    action_is_entry (generate_signals p s bar).1 = false
    ∧ (s.am_inited = true → 0 < s.pos →
        generate_signals p s bar
          = (SignalAction.managedLong (manage_long_position p s bar).1,
             (manage_long_position p s bar).2))
    ∧ (s.am_inited = true → s.pos < 0 →
        generate_signals p s bar
          = (SignalAction.managedShort (manage_short_position p s bar).1,
             (manage_short_position p s bar).2))
    ∧ (s.am_inited = false → (generate_signals p s bar).1 = SignalAction.skip) := by
  refine ⟨?_, ?_, ?_, ?_⟩
  · cases hin : s.am_inited with
    | false =>
      rw [generate_signals_skip p s bar hin]
      rfl
    | true =>
      rcases lt_trichotomy s.pos 0 with hp | hp | hp
      · rw [generate_signals_short p s bar hin hp]
        rfl
      · exact absurd hp h
      · rw [generate_signals_long p s bar hin hp]
        rfl
  · intro hin hp
    exact generate_signals_long p s bar hin hp
  · intro hin hp
    exact generate_signals_short p s bar hin hp
  · intro hin
    rw [generate_signals_skip p s bar hin]

/-- Witness for C3: with a held long position on `sampleBar` and a held
short position on `shortBar`, `generate_signals` runs exactly position
management and no entry evaluation. -/
theorem C3_position_priority_witness :
    action_is_entry (generate_signals defaultParams sampleLong sampleBar).1 = false
    ∧ (generate_signals defaultParams sampleLong sampleBar).1
        = SignalAction.managedLong (manage_long_position defaultParams sampleLong sampleBar).1
    ∧ action_is_entry (generate_signals defaultParams sampleShort shortBar).1 = false
    ∧ (generate_signals defaultParams sampleShort shortBar).1
        = SignalAction.managedShort (manage_short_position defaultParams sampleShort shortBar).1 := by
  have hL := C3_position_priority defaultParams sampleLong sampleBar
    (by norm_num [sampleLong, initState])
  have hS := C3_position_priority defaultParams sampleShort shortBar
    (by norm_num [sampleShort, initState])
  refine ⟨hL.1, ?_, hS.1, ?_⟩
  · rw [hL.2.1 rfl (by norm_num [sampleLong, initState])]
  · rw [hS.2.2.1 rfl (by norm_num [sampleShort, initState])]

end BtcStrategy

namespace BtcStrategy

/-- C4 counterexample: on a long opening fill at 50000 (with ATR 500)
from a fresh flat state, `on_trade` does NOT set both intra-trade
extremes to the fill price — `intra_trade_low` keeps its stale value 0,
refuting the claim that intratrade_high and intratrade_low are both set
to the fill price. -/
theorem C4_entry_fill_counterexample :
    ¬ ((on_trade defaultParams sampleEntryState openLongTrade).intra_trade_high
          = openLongTrade.price
       ∧ (on_trade defaultParams sampleEntryState openLongTrade).intra_trade_low
          = openLongTrade.price) := by
  intro hc
  have h := hc.2
  norm_num [on_trade, sampleEntryState, initState, openLongTrade] at h

/-- C4 (amended): on every opening fill, `entry_price` is set to the
fill price and the initial trailing stop is `entry_price - ATR *
atr_multiplier` for a long entry and `entry_price + ATR *
atr_multiplier` for a short entry; only the extreme on the position's
own side is set to the fill price (`intra_trade_high` for long,
`intra_trade_low` for short) — the opposite extreme is left
unchanged. -/
theorem C4_entry_fill (p : Params) (s : StratState) (t : TradeData)
    (h : t.offset = TradeOffset.opening) :
    (on_trade p s t).entry_price = t.price
    ∧ (t.direction = TradeDirection.long →
        (on_trade p s t).intra_trade_high = t.price
        ∧ (on_trade p s t).intra_trade_low = s.intra_trade_low
        ∧ (on_trade p s t).trailing_stop_price = t.price - s.atr_value * p.atr_multiplier)
    ∧ (t.direction = TradeDirection.short →
        (on_trade p s t).intra_trade_low = t.price
        ∧ (on_trade p s t).intra_trade_high = s.intra_trade_high
        ∧ (on_trade p s t).trailing_stop_price = t.price + s.atr_value * p.atr_multiplier) := by
  unfold on_trade
  rw [if_pos h]
  cases hd : t.direction <;> simp [hd]

/-- Witness for C4: a long entry at 50000 with ATR 500 and multiplier
2.5 yields entry price 50000 and initial stop 48750; the matching short
entry yields initial stop 51250. -/
theorem C4_entry_fill_witness :
    (on_trade defaultParams sampleEntryState openLongTrade).entry_price = 50000
    ∧ (on_trade defaultParams sampleEntryState openLongTrade).trailing_stop_price = 48750
    ∧ (on_trade defaultParams sampleEntryState openShortTrade).trailing_stop_price = 51250 := by
  have h := C4_entry_fill defaultParams sampleEntryState openLongTrade rfl
  have h2 := C4_entry_fill defaultParams sampleEntryState openShortTrade rfl
  refine ⟨?_, ?_, ?_⟩
  · rw [h.1]
    rfl
  · rw [(h.2.1 rfl).2.2]
    norm_num [sampleEntryState, openLongTrade, defaultParams, initState]
  · rw [(h2.2.2 rfl).2.2]
    norm_num [sampleEntryState, openShortTrade, defaultParams, initState]

/-- C5: flatten resets state.  After every closing fill, `entry_price`,
`intra_trade_high`, `intra_trade_low` and `trailing_stop_price` are all
exactly zero — always reset together. -/
theorem C5_flatten_resets (p : Params) (s : StratState) (t : TradeData)
    (h : t.offset = TradeOffset.closing) :
    (on_trade p s t).entry_price = 0
    ∧ (on_trade p s t).intra_trade_high = 0
    ∧ (on_trade p s t).intra_trade_low = 0
    ∧ (on_trade p s t).trailing_stop_price = 0 := by
  unfold on_trade
  rw [if_neg (by simp [h])]
  exact ⟨rfl, rfl, rfl, rfl⟩

/-- Witness for C5: a closing fill against the held long position zeroes
all four fields. -/
theorem C5_flatten_resets_witness :
    (on_trade defaultParams sampleLong closeTrade).entry_price = 0
    ∧ (on_trade defaultParams sampleLong closeTrade).intra_trade_high = 0
    ∧ (on_trade defaultParams sampleLong closeTrade).intra_trade_low = 0
    ∧ (on_trade defaultParams sampleLong closeTrade).trailing_stop_price = 0 :=
  C5_flatten_resets defaultParams sampleLong closeTrade rfl

/-- Processing a bar list whose bars all leave the array manager below
its capacity skips every bar, leaves the inited flag false and emits no
order. -/
theorem run_bars_warmup (p : Params) :
    ∀ (l : List (BarData × IndValues)) (s : StratState),
      s.am_inited = false → s.am_count + l.length < 200 →
      ((run_bars p s l).2.all action_is_skip = true
       ∧ (run_bars p s l).1.am_inited = false
       ∧ ((run_bars p s l).2.map orders_of_action).sum = 0) := by
  intro l
  induction l with
  | nil =>
    intro s h1 h2
    exact ⟨rfl, h1, rfl⟩
  | cons bi t ih =>
    intro s h1 h2
    have hlen : s.am_count + 1 < 200 := by
      simp only [List.length_cons] at h2
      omega
    have hc : (pre_bar_state s bi.1).am_inited = false := by
      rw [pre_bar_state_am_inited, h1, Bool.false_or]
      exact decide_eq_false (by omega)
    have hb : on_bar p s bi.1 bi.2 = (SignalAction.skip, pre_bar_state s bi.1) := by
      unfold on_bar
      dsimp only
      rw [hc]
      rw [if_neg (by simp)]
    have hstep : bar_step p s bi = pre_bar_state s bi.1 := by
      unfold bar_step
      rw [hb]
    have hnext := ih (bar_step p s bi)
      (by rw [hstep]; exact hc)
      (by
        rw [hstep, pre_bar_state_am_count]
        simp only [List.length_cons] at h2
        omega)
    refine ⟨?_, hnext.2.1, ?_⟩
    · show ((run_bars p s (bi :: t)).2.all action_is_skip) = true
      unfold run_bars
      dsimp only
      rw [hb]
      simp only [List.all_cons, Bool.and_eq_true]
      exact ⟨rfl, hnext.1⟩
    · show ((run_bars p s (bi :: t)).2.map orders_of_action).sum = 0
      unfold run_bars
      dsimp only
      rw [hb]
      simp only [List.map_cons, List.sum_cons]
      rw [hnext.2.2]
      rfl

/-- C6: insufficient data produces no decisions.  From the fresh state,
for every bar sequence shorter than the 200-bar lookback, every bar is
skipped (no indicator calculation or signal generation runs), the
inited flag stays false, and no order is ever emitted; the condition is
handled by the total skip branch, never as an error. -/
theorem C6_insufficient_data (p : Params) (l : List (BarData × IndValues))
    (h : l.length < 200) :
    (run_bars p initState l).2.all action_is_skip = true
    ∧ (run_bars p initState l).1.am_inited = false
    ∧ ((run_bars p initState l).2.map orders_of_action).sum = 0 :=
  run_bars_warmup p l initState rfl
    (by
      have h0 : initState.am_count = 0 := rfl
      omega)

/-- Witness for C6: a single warm-up bar is skipped, leaves the manager
uninitialized and emits no order. -/
theorem C6_insufficient_data_witness :
    (run_bars defaultParams initState [(sampleBar, sampleIv)]).2.all action_is_skip = true
    ∧ (run_bars defaultParams initState [(sampleBar, sampleIv)]).1.am_inited = false
    ∧ ((run_bars defaultParams initState [(sampleBar, sampleIv)]).2.map
        orders_of_action).sum = 0 :=
  C6_insufficient_data defaultParams [(sampleBar, sampleIv)] (by decide)

end BtcStrategy

namespace BtcStrategy

/-- C7 counterexample: a golden cross on one bar (previous K 1 below
previous D 2, new K 3 above new D 2) sets the flag, but on the following
bar — on which neither the golden-cross nor the dead-cross condition
holds (previous K 3 above previous D 2, new K 4 above new D 2) — the
flag is STILL set, refuting the claim that the buy signal is flagged
only on the crossing bar and not on following no-cross bars. -/
theorem C7_golden_cross_counterexample :
    (calculate_indicators sampleIv1 crossState).stoch_cross_over = true
    ∧ ¬ ((calculate_indicators sampleIv1 crossState).k_value
           < (calculate_indicators sampleIv1 crossState).d_value
         ∧ sampleIv2.d < sampleIv2.k)
    ∧ ¬ ((calculate_indicators sampleIv1 crossState).d_value
           < (calculate_indicators sampleIv1 crossState).k_value
         ∧ sampleIv2.k < sampleIv2.d)
    ∧ (calculate_indicators sampleIv2
        (calculate_indicators sampleIv1 crossState)).stoch_cross_over = true := by
  refine ⟨?_, ?_, ?_, ?_⟩ <;>
    norm_num [calculate_indicators, stoch_cross_update, crossState, sampleIv1, sampleIv2,
      initState]

/-- C7 (amended): the crossover flag is updated from the previous and
current K/D exactly as a set/clear/hold latch — a golden cross sets it
on precisely the crossing bar, a dead cross clears it, and on any bar
with no new cross it is left unchanged (so after a golden cross it stays
set, as a regime flag, until a dead cross occurs; the false-to-true
transition happens exactly on the crossing bar). -/
theorem C7_golden_cross_flag (lastK lastD k d : ℚ) (f : Bool) (iv : IndValues)
    (s : StratState) :
    (calculate_indicators iv s).stoch_cross_over
      = stoch_cross_update s.k_value s.d_value iv.k iv.d s.stoch_cross_over
    ∧ (lastK < lastD → d < k → stoch_cross_update lastK lastD k d f = true)
    ∧ (lastD < lastK → k < d → stoch_cross_update lastK lastD k d f = false)
    ∧ (¬ (lastK < lastD ∧ d < k) → ¬ (lastD < lastK ∧ k < d) →
        stoch_cross_update lastK lastD k d f = f) := by
  refine ⟨rfl, ?_, ?_, ?_⟩
  · intro h1 h2
    unfold stoch_cross_update
    rw [if_pos ⟨h1, h2⟩]
  · intro h1 h2
    unfold stoch_cross_update
    rw [if_neg (fun hc => (lt_asymm h1) hc.1), if_pos ⟨h1, h2⟩]
  · intro h1 h2
    unfold stoch_cross_update
    rw [if_neg h1, if_neg h2]

/-- Witness for C7: the latch sets on a golden cross, clears on a dead
cross, and holds (stays true) on a no-cross bar. -/
theorem C7_golden_cross_flag_witness :
    stoch_cross_update 1 2 3 2 false = true
    ∧ stoch_cross_update 3 2 1 2 true = false
    ∧ stoch_cross_update 3 2 4 2 true = true := by
  have h1 := C7_golden_cross_flag 1 2 3 2 false sampleIv1 crossState
  have h2 := C7_golden_cross_flag 3 2 1 2 true sampleIv1 crossState
  have h3 := C7_golden_cross_flag 3 2 4 2 true sampleIv1 crossState
  exact ⟨h1.2.1 (by norm_num) (by norm_num),
    h2.2.2.1 (by norm_num) (by norm_num),
    h3.2.2.2 (by norm_num) (by norm_num)⟩

/-- C10: short zero-stop edge case.  While the short trailing stop is
still 0 and the activation threshold does not hold, the stop-loss
branch fires for any close at or above 0 and a cover order is issued at
once; once activated, the zero guard adopts the candidate stop
unconditionally.  On the long side the analogous zero stop can never
trigger the stop branch for a positive close, and a candidate at or
below the zero stop is never adopted — the zero special-case is a
short-side asymmetry. -/
theorem C10_short_zero_stop (p : Params) (s : StratState) (bar : BarData) :
    (s.trailing_stop_price = 0 →
      ¬ (bar.close_price < s.entry_price * (1 - p.trailing_stop_activation_pct)) →
      0 ≤ bar.close_price →
      (manage_short_position p s bar).1 = some ExitReason.stopLoss)
    ∧ (s.trailing_stop_price = 0 →
        bar.close_price < s.entry_price * (1 - p.trailing_stop_activation_pct) →
        (manage_short_position p s bar).2.trailing_stop_price
          = s.intra_trade_low + s.atr_value * p.atr_multiplier)
    ∧ (s.trailing_stop_price = 0 →
        ¬ (s.entry_price * (1 + p.trailing_stop_activation_pct) < bar.close_price) →
        0 < bar.close_price →
        (manage_long_position p s bar).1 ≠ some ExitReason.stopLoss)
    ∧ (s.trailing_stop_price = 0 →
        s.intra_trade_high - s.atr_value * p.atr_multiplier ≤ 0 →
        (manage_long_position p s bar).2.trailing_stop_price = 0) := by
  refine ⟨?_, ?_, ?_, ?_⟩
  · intro h0 hact hcl
    rw [manage_short_fst]
    have hstop : short_updated_stop p s bar = 0 := by
      unfold short_updated_stop
      rw [if_neg hact]
      exact h0
    rw [hstop, if_pos hcl]
  · intro h0 hact
    rw [manage_short_stop_eq]
    unfold short_updated_stop
    rw [if_pos hact, if_pos (Or.inl h0)]
  · intro h0 hact hcl
    rw [manage_long_fst]
    have hstop : long_updated_stop p s bar = 0 := by
      unfold long_updated_stop
      rw [if_neg hact]
      exact h0
    rw [hstop, if_neg (not_le.mpr hcl)]
    split_ifs <;> simp
  · intro h0 hcand
    rw [manage_long_stop_eq]
    unfold long_updated_stop
    rw [h0]
    split_ifs with h1 h2
    · linarith
    · rfl
    · rfl

/-- Witness for C10: a short with zero stop on a non-activating bar
exits by stop-loss at close 100; on an activating bar the candidate 95
is adopted from stop 0; a long with zero stop on a non-activating bar
does not exit by stop-loss; and a long zero stop with a nonpositive
candidate stays 0 even on an activating bar. -/
theorem C10_short_zero_stop_witness :
    (manage_short_position defaultParams sampleZeroShort zeroStopBarHold).1
        = some ExitReason.stopLoss
    ∧ (manage_short_position defaultParams sampleZeroShort zeroStopBarAct).2.trailing_stop_price
        = sampleZeroShort.intra_trade_low
          + sampleZeroShort.atr_value * defaultParams.atr_multiplier
    ∧ (manage_long_position defaultParams sampleZeroLong zeroStopBarHold).1
        ≠ some ExitReason.stopLoss
    ∧ (manage_long_position defaultParams sampleZeroLong zeroLongActBar).2.trailing_stop_price
        = 0 := by
  have h1 := C10_short_zero_stop defaultParams sampleZeroShort zeroStopBarHold
  have h2 := C10_short_zero_stop defaultParams sampleZeroShort zeroStopBarAct
  have h3 := C10_short_zero_stop defaultParams sampleZeroLong zeroStopBarHold
  have h4 := C10_short_zero_stop defaultParams sampleZeroLong zeroLongActBar
  refine ⟨h1.1 rfl ?_ ?_, h2.2.1 rfl ?_, h3.2.2.1 rfl ?_ ?_, h4.2.2.2 rfl ?_⟩
  · norm_num [sampleZeroShort, zeroStopBarHold, defaultParams, initState]
  · norm_num [zeroStopBarHold]
  · norm_num [sampleZeroShort, zeroStopBarAct, defaultParams, initState]
  · norm_num [sampleZeroLong, zeroStopBarHold, defaultParams, initState]
  · norm_num [zeroStopBarHold]
  · norm_num [sampleZeroLong, defaultParams, initState]

end BtcStrategy

namespace BinanceTrader

/-- C8: quantity-rounding code bug at the spec's own example.  Binance
reports step size 0.00001 for BTCUSDT, and Python renders the float
0.00001 as the string `"1e-05"`, which contains no dot; the precision
derivation of `round_quantity` therefore yields 0 decimal places, so the
requested 0.123456 BTC is rounded down to 0 and `buy_market` rejects the
order (returns none) — against the claim (and the clear intent of the
code) that it rounds to 0.12345 and passes the minimum-quantity check.
Had the step-size string been `"0.00001"`, the precision would be 5 and
the quantity would round to 0.12345 = 2469/20000 as the spec states. -/
theorem C8_round_quantity_bug :
    step_precision "1e-05" = 0
    ∧ round_quantity "1e-05" (123456/1000000 : ℚ) = 0
    ∧ (buy_market "1e-05" (1/10000) 50000 (Except.ok sampleOrder) sampleTrader
        (123456/1000000 : ℚ)).1 = none
    ∧ step_precision "0.00001" = 5
    ∧ round_quantity "0.00001" (123456/1000000 : ℚ) = 2469/20000 := by
  have hp : step_precision "1e-05" = 0 := by decide
  have hq : round_quantity "1e-05" (123456/1000000 : ℚ) = 0 := by
    unfold round_quantity
    rw [hp]
    norm_num [trunc_toward_zero]
  refine ⟨hp, hq, ?_, by decide, ?_⟩
  · unfold buy_market
    dsimp only
    rw [hq]
    rw [if_pos (by norm_num)]
  · unfold round_quantity
    rw [show step_precision "0.00001" = 5 by decide]
    norm_num [trunc_toward_zero]

/-- C9: order-submission atomicity.  If order creation fails with any of
the caught exceptions, `buy_market` and `sell_market` return none
without propagating the failure, and the trader's position and entry
price are left exactly as before the call. -/
theorem C9_order_error_atomicity (stepStr : String) (min_qty current_price q : ℚ)
    (e : ApiFailure) (s : TraderState) :
    buy_market stepStr min_qty current_price (Except.error e) s q = (none, s)
    ∧ sell_market stepStr min_qty (Except.error e) s q = (none, s) := by
  refine ⟨?_, ?_⟩
  · unfold buy_market
    dsimp only
    split_ifs <;> rfl
  · unfold sell_market
    dsimp only
    split_ifs <;> rfl

end BinanceTrader
